import Mathlib

/-!
Shallow embedding of the CBOE UDP receiver's core components:
the per-channel sequence tracker (`SequenceManager::determine_order_status`),
the packet classifier (`classify_packet_type`, `PacketProcessor::validate_packet`),
the statistics pipeline (`PacketProcessor::process_packet`), and the binary
journal record serialization (`BinaryLogger::log_packet`).

Machine integers are modelled as `Nat` carrying their numeric value, with
explicit `% U32` where the C code performs `uint32_t` arithmetic that could
wrap.  `std::map<uint32_t,bool> pending_sequences` is modelled as the
`Finset ℕ` of keys mapped to `true` (the code only ever stores `true`).
-/

namespace Cboe

/-- `2^32`, the modulus of `uint32_t` arithmetic. -/
def U32 : Nat := 4294967296

/-- Order status enumeration for binary storage (packet_types.h). -/
inductive OrderStatus where
  | UNSEQUENCED
  | SEQUENCED_FIRST
  | SEQUENCED_IN_ORDER
  | SEQUENCED_OUT_OF_ORDER_LATE
  | SEQUENCED_OUT_OF_ORDER_EARLY
  | SEQUENCED_DUPLICATE
deriving DecidableEq, Repr

/-- Packet type enumeration for binary storage (packet_types.h). -/
inductive PacketType where
  | HEARTBEAT
  | ADMIN
  | UNSEQUENCED
  | DATA
deriving DecidableEq, Repr

/-- Sequence tracking state for each `(port, unit)` channel (packet_types.h,
`struct SequenceTracker`).  `pending_sequences` is the key set of the
`std::map<uint32_t, bool>`. -/
structure SequenceTracker where
  last_confirmed_seq : Nat
  highest_seen_seq : Nat
  pending_sequences : Finset Nat
deriving DecidableEq

/-- Default-constructed `SequenceTracker`: the field initializers give
`last_confirmed_seq = 0`, `highest_seen_seq = 0`, empty pending map. -/
def SequenceTracker.init : SequenceTracker :=
  { last_confirmed_seq := 0, highest_seen_seq := 0, pending_sequences := ∅ }

/-- One fuel-indexed unfolding of the pending-absorption loop; see `absorb`. -/
def absorbFuel : Nat → Nat → Finset Nat → Nat × Finset Nat
  | 0, lc, p => (lc, p)
  | Nat.succ fuel, lc, p =>
      if (lc + 1) % U32 ∈ p then
        absorbFuel fuel ((lc + 1) % U32) (p.erase ((lc + 1) % U32))
      else
        (lc, p)

/-- The pending-absorption loop of `determine_order_status`.  The C code
repeats: while `last_confirmed_seq + 1` is in `pending_sequences`, scan
forward to the end of the contiguous run, set `last_confirmed_seq` to the
run's end, and erase the run.  One element is confirmed and erased at a
time here; the net effect on `(last_confirmed_seq, pending)` is identical
because the inner scan-and-bulk-erase just performs these single steps in
a batch.  Each iteration erases one element of `p`, so `p.card + 1` units
of fuel are never exhausted and the fuel value never influences the
result. -/
def absorb (lc : Nat) (p : Finset Nat) : Nat × Finset Nat :=
  absorbFuel (p.card + 1) lc p

/-- The effective message count used by `determine_order_status`:
`count` treated as at least 1, with the near-overflow guard
`seq > UINT32_MAX - message_count + 1` forcing a fallback to 1. -/
def effective_count (seq count : Nat) : Nat :=
  let message_count := if count > 0 then count else 1
  if seq > U32 - 1 - message_count + 1 then 1 else message_count

/-- `SequenceManager::determine_order_status` (sequence_tracker.cpp), acting
on the single channel's `SequenceTracker` selected by `(port, unit)`;
returns the verdict and the updated tracker state. -/
def determine_order_status (t : SequenceTracker) (seq count : Nat) :
    OrderStatus × SequenceTracker :=
  if seq = 0 then
    (OrderStatus.UNSEQUENCED, t)
  else
    let message_count := effective_count seq count
    if t.last_confirmed_seq = 0 ∧ t.highest_seen_seq = 0 then
      (OrderStatus.SEQUENCED_FIRST,
        { t with
            last_confirmed_seq := (seq + message_count - 1) % U32,
            highest_seen_seq := (seq + message_count - 1) % U32 })
    else
      let expected := (t.last_confirmed_seq + 1) % U32
      if seq = expected then
        let lc1 := (seq + message_count - 1) % U32
        let ab := absorb lc1 t.pending_sequences
        (OrderStatus.SEQUENCED_IN_ORDER,
          { t with last_confirmed_seq := ab.1, pending_sequences := ab.2 })
      else if seq < expected then
        if seq ≤ t.last_confirmed_seq then
          (OrderStatus.SEQUENCED_DUPLICATE, t)
        else
          (OrderStatus.SEQUENCED_OUT_OF_ORDER_LATE, t)
      else
        (OrderStatus.SEQUENCED_OUT_OF_ORDER_EARLY,
          { t with
              pending_sequences :=
                (List.range message_count).foldl
                  (fun p i => insert ((seq + i) % U32) p) t.pending_sequences,
              highest_seen_seq :=
                max t.highest_seen_seq ((seq + message_count - 1) % U32) })

/-- Run a list of `(seq, count)` packets on one channel from a starting
tracker state, collecting the verdicts and the final state. -/
def runTracker (t : SequenceTracker) : List (Nat × Nat) → List OrderStatus × SequenceTracker
  | [] => ([], t)
  | (seq, count) :: rest =>
      let r := determine_order_status t seq count
      let rr := runTracker r.2 rest
      (r.1 :: rr.1, rr.2)

/-- `SequenceManager`'s tracker map `std::map<std::pair<int,int>, SequenceTracker>`,
modelled as a total function: `operator[]` default-constructs a missing
entry, so an absent key and a default-constructed tracker are
indistinguishable to `determine_order_status`. -/
def SequenceManager : Type := Int × Int → SequenceTracker

/-- A fresh `SequenceManager`: every channel is at its default-constructed
tracker state. -/
def SequenceManager.init : SequenceManager := fun _ => SequenceTracker.init

/-- `SequenceManager::determine_order_status` at the map level: the `seq == 0`
test precedes the map lookup; otherwise the `(port, unit)` tracker is
selected and updated in place. -/
def SequenceManager.determine (m : SequenceManager) (seq count : Nat)
    (port unit : Int) : OrderStatus × SequenceManager :=
  if seq = 0 then
    (OrderStatus.UNSEQUENCED, m)
  else
    let key := (port, unit)
    let r := determine_order_status (m key) seq count
    (r.1, fun k => if k = key then r.2 else m k)

/-- Run a list of `(seq, count, port, unit)` calls through a
`SequenceManager` from a starting state, collecting all verdicts. -/
def runManager (m : SequenceManager) :
    List (Nat × Nat × Int × Int) → List OrderStatus × SequenceManager
  | [] => ([], m)
  | (seq, count, port, unit) :: rest =>
      let r := m.determine seq count port unit
      let rr := runManager r.2 rest
      (r.1 :: rr.1, rr.2)

/-! ## Classifier and validation -/

namespace Config

/-- `Config::MAX_BUF` (packet_types.h). -/
def MAX_BUF : Nat := 2048

/-- `Config::SKIP_HEARTBEATS` (packet_types.h): heartbeat filtering is
compiled in as enabled. -/
def SKIP_HEARTBEATS : Bool := true

end Config

/-- Little-endian `u16` read of bytes 0 and 1 of the buffer: the
`hdr_length` field of `CboeSequencedUnitHeader` as produced by
`le16toh_safe(header->hdr_length)`.  Out-of-range reads default to 0;
validation only reads them under `length ≥ 8`. -/
def readLE16 (buffer : List Nat) : Nat :=
  buffer.getD 0 0 + 256 * buffer.getD 1 0

/-- Little-endian `u32` read of bytes 4..7 of the buffer: the
`hdr_sequence` field of `CboeSequencedUnitHeader` as produced by
`le32toh_safe(header->hdr_sequence)`. -/
def readLE32seq (buffer : List Nat) : Nat :=
  buffer.getD 4 0 + 256 * buffer.getD 5 0 + 65536 * buffer.getD 6 0 +
    16777216 * buffer.getD 7 0

/-- `PacketProcessor::validate_packet` (packet_processor.cpp).  The buffer
is the received datagram; `len` is its byte length,
`sizeof(CboeSequencedUnitHeader) = 8`. -/
def validate_packet (buffer : List Nat) : Bool :=
  if buffer.length < 8 then
    false
  else
    let declared_length := readLE16 buffer
    if declared_length = 0 ∨ declared_length > Config.MAX_BUF then
      false
    else if declared_length > buffer.length + 100 then
      false
    else
      true

/-- `classify_packet_type` (packet_types.cpp).  `len` is the C `int`
parameter. -/
def classify_packet_type (seq : Nat) (count : Nat) (len : Int) : PacketType :=
  if seq = 0 then
    if count = 0 ∧ len ≤ 20 then
      PacketType.HEARTBEAT
    else if count = 0 then
      PacketType.ADMIN
    else
      PacketType.UNSEQUENCED
  else
    PacketType.DATA

/-! ## Processing pipeline statistics -/

/-- `PacketProcessor::Statistics` (packet_processor.h); the
`start_time` instant and derived rates are timing-only and not modelled. -/
structure Statistics where
  total_packets : Nat
  heartbeats_skipped : Nat
  data_packets : Nat
  admin_packets : Nat
  unsequenced_packets : Nat
  out_of_order_packets : Nat
  duplicate_packets : Nat
deriving DecidableEq

/-- Zero-initialized statistics, as in the in-class initializers. -/
def Statistics.init : Statistics :=
  { total_packets := 0, heartbeats_skipped := 0, data_packets := 0,
    admin_packets := 0, unsequenced_packets := 0,
    out_of_order_packets := 0, duplicate_packets := 0 }

/-- The state of a `PacketProcessor` relevant to packet accounting: the
statistics counters and the sequence manager.  The logger is modelled
separately (`log_packet_entry`); console warnings and periodic reports do
not change this state. -/
structure PacketProcessor where
  stats : Statistics
  seq_manager : SequenceManager

/-- A freshly constructed `PacketProcessor`. -/
def PacketProcessor.init : PacketProcessor :=
  { stats := Statistics.init, seq_manager := SequenceManager.init }

/-- `PacketProcessor::process_packet` (packet_processor.cpp) restricted to
its state effect: bump `total_packets`; drop invalid packets; parse the
header; classify; skip heartbeats when filtering is enabled; otherwise
bump the per-type counter, consult the sequence manager, and bump the
out-of-order/duplicate counters.  The journal submission itself is
modelled by `log_packet_entry`. -/
def process_packet (p : PacketProcessor) (port : Int) (buffer : List Nat) :
    PacketProcessor :=
  let stats0 := { p.stats with total_packets := p.stats.total_packets + 1 }
  if validate_packet buffer = false then
    { p with stats := stats0 }
  else
    let sequence := readLE32seq buffer
    let count := buffer.getD 2 0
    let unit : Int := Int.ofNat (buffer.getD 3 0)
    let packet_type := classify_packet_type sequence count (Int.ofNat buffer.length)
    if packet_type = PacketType.HEARTBEAT ∧ Config.SKIP_HEARTBEATS then
      { p with stats :=
          { stats0 with heartbeats_skipped := stats0.heartbeats_skipped + 1 } }
    else
      let stats1 :=
        match packet_type with
        | PacketType.HEARTBEAT => stats0
        | PacketType.DATA =>
            { stats0 with data_packets := stats0.data_packets + 1 }
        | PacketType.ADMIN =>
            { stats0 with admin_packets := stats0.admin_packets + 1 }
        | PacketType.UNSEQUENCED =>
            { stats0 with unsequenced_packets := stats0.unsequenced_packets + 1 }
      let r := p.seq_manager.determine sequence count port unit
      let stats2 :=
        match r.1 with
        | OrderStatus.SEQUENCED_OUT_OF_ORDER_EARLY =>
            { stats1 with out_of_order_packets := stats1.out_of_order_packets + 1 }
        | OrderStatus.SEQUENCED_OUT_OF_ORDER_LATE =>
            { stats1 with out_of_order_packets := stats1.out_of_order_packets + 1 }
        | OrderStatus.SEQUENCED_DUPLICATE =>
            { stats1 with duplicate_packets := stats1.duplicate_packets + 1 }
        | _ => stats1
      { stats := stats2, seq_manager := r.2 }

/-- Run a list of `(port, buffer)` datagrams through the processor. -/
def runProcessor (p : PacketProcessor) : List (Int × List Nat) → PacketProcessor
  | [] => p
  | (port, buffer) :: rest => runProcessor (process_packet p port buffer) rest

/-- The number of packets in a batch that `validate_packet` rejects. -/
def invalidCount : List (Int × List Nat) → Nat
  | [] => 0
  | pk :: rest => (if validate_packet pk.2 = false then 1 else 0) + invalidCount rest

/-! ## Binary journal record -/

/-- `k`-byte little-endian encoding of `v mod 2^(8k)`: the in-memory bytes
of a packed unsigned integer field on the little-endian target. -/
def leBytes (k v : Nat) : List Nat :=
  (List.range k).map (fun i => v / 256 ^ i % 256)

/-- `struct BinaryLogRecord` (packet_types.h): packed, so its bytes are
the fields' little-endian encodings in declaration order.  All fields
carry their numeric values. -/
structure BinaryLogRecord where
  timestamp_ns : Nat
  packet_id : Nat
  sequence : Nat
  src_ip : Nat
  port : Nat
  length : Nat
  count : Nat
  unit : Nat
  packet_type : Nat
  order_status : Nat
  payload_length : Nat
deriving DecidableEq

/-- The packed in-memory bytes of a `BinaryLogRecord` in field declaration
order (`__attribute__((packed))`, little-endian host). -/
def BinaryLogRecord.toBytes (r : BinaryLogRecord) : List Nat :=
  leBytes 8 r.timestamp_ns ++ leBytes 4 r.packet_id ++ leBytes 4 r.sequence ++
    leBytes 4 r.src_ip ++ leBytes 2 r.port ++ leBytes 2 r.length ++
    leBytes 1 r.count ++ leBytes 1 r.unit ++ leBytes 1 r.packet_type ++
    leBytes 1 r.order_status ++ leBytes 2 r.payload_length

/-- The `BinaryLogRecord` built by `BinaryLogger::log_packet`
(binary_logger.cpp): `payload_length = min(len, 256)`, all other fields
copied from the arguments. -/
def log_packet_record (packet_id port : Nat) (len : Nat)
    (sequence count unit packet_type order_status src_ip timestamp_ns : Nat) :
    BinaryLogRecord :=
  { timestamp_ns := timestamp_ns, packet_id := packet_id,
    sequence := sequence, src_ip := src_ip, port := port, length := len,
    count := count, unit := unit, packet_type := packet_type,
    order_status := order_status, payload_length := min len 256 }

/-- The single journal entry built by `BinaryLogger::log_packet`: the packed
record bytes followed by the first `payload_length` bytes of the packet
buffer, submitted in one `binary_logger_->info(log_entry)` call. -/
def log_packet_entry (packet_id port : Nat) (buffer : List Nat) (len : Nat)
    (sequence count unit packet_type order_status src_ip timestamp_ns : Nat) :
    List Nat :=
  let record := log_packet_record packet_id port len sequence count unit
    packet_type order_status src_ip timestamp_ns
  record.toBytes ++ buffer.take record.payload_length

/-! ## Helper lemmas about the sequence tracker -/

/-- The modulus reduction of `expected = last_confirmed_seq + 1` never
exceeds `last_confirmed_seq + 1`. -/
lemma expected_le (lc : Nat) : (lc + 1) % U32 ≤ lc + 1 :=
  Nat.mod_le _ _

/-- No branch of `determine_order_status` can return the LATE verdict: the
branch guarding it needs `seq < (last_confirmed_seq + 1) % 2^32` together
with `last_confirmed_seq < seq`, which no natural number satisfies. -/
lemma determine_order_status_ne_late (t : SequenceTracker) (seq count : Nat) :
    (determine_order_status t seq count).1 ≠
      OrderStatus.SEQUENCED_OUT_OF_ORDER_LATE := by
  have hm := expected_le t.last_confirmed_seq
  simp only [determine_order_status]
  split_ifs with h0 h1 h2 h3 h4 <;> simp_all
  omega

/-- `SequenceManager.determine` never returns LATE either. -/
lemma manager_determine_ne_late (m : SequenceManager) (seq count : Nat)
    (port unit : Int) :
    (m.determine seq count port unit).1 ≠
      OrderStatus.SEQUENCED_OUT_OF_ORDER_LATE := by
  simp only [SequenceManager.determine]
  split_ifs with h0
  · simp
  · exact determine_order_status_ne_late _ _ _

/-- Lifting `determine_order_status_ne_late` to whole runs from any
manager state. -/
lemma runManager_ne_late (inputs : List (Nat × Nat × Int × Int)) :
    ∀ m : SequenceManager, OrderStatus.SEQUENCED_OUT_OF_ORDER_LATE ∉
      (runManager m inputs).1 := by
  induction inputs with
  | nil => intro m; simp [runManager]
  | cons x rest ih =>
      intro m
      obtain ⟨seq, count, port, unit⟩ := x
      simp only [runManager, List.mem_cons]
      rintro (h | h)
      · exact manager_determine_ne_late m seq count port unit h.symm
      · exact ih _ h

/-! ## Claims -/

/-- Claim C1 (corrected).  On a single channel from the initial state, the
packets `(seq 10, count 1)`, `(15, 1)`, `(12, 1)` yield the verdicts
FIRST, EARLY, EARLY — not LATE — and leave
`(last_confirmed_seq, highest_seen_seq, pending) = (10, 15, {12, 15})`;
more generally, every sequenced packet with
`last_confirmed_seq < s ≤ highest_seen_seq` and
`s ≠ last_confirmed_seq + 1` is classified EARLY. -/
theorem C1_amended :
    ((runTracker SequenceTracker.init [(10, 1), (15, 1), (12, 1)]).1 =
      [OrderStatus.SEQUENCED_FIRST, OrderStatus.SEQUENCED_OUT_OF_ORDER_EARLY,
        OrderStatus.SEQUENCED_OUT_OF_ORDER_EARLY]) ∧
    ((runTracker SequenceTracker.init [(10, 1), (15, 1), (12, 1)]).2 =
      ⟨10, 15, {12, 15}⟩) ∧
    (∀ (t : SequenceTracker) (s c : Nat), s < U32 →
      t.last_confirmed_seq < s → s ≤ t.highest_seen_seq →
      s ≠ t.last_confirmed_seq + 1 →
      (determine_order_status t s c).1 =
        OrderStatus.SEQUENCED_OUT_OF_ORDER_EARLY) := by
  refine ⟨by decide, by decide, ?_⟩
  intro t s c hs32 hlc hhs hne
  have hmod : (t.last_confirmed_seq + 1) % U32 = t.last_confirmed_seq + 1 := by
    apply Nat.mod_eq_of_lt
    omega
  simp only [determine_order_status]
  split_ifs with h0 h1 h2 h3 <;> simp_all <;> omega

/-- Witness for C1: the general EARLY statement applied to the concrete
state reached after `(10, 1)` and `(15, 1)`, at sequence 12. -/
theorem C1_amended_witness :
    (determine_order_status ⟨10, 15, {15}⟩ 12 1).1 =
      OrderStatus.SEQUENCED_OUT_OF_ORDER_EARLY :=
  C1_amended.2.2 ⟨10, 15, {15}⟩ 12 1 (by decide) (by decide) (by decide)
    (by decide)

/-- Counterexample for C1 as stated: the third verdict for
`(10, 1), (15, 1), (12, 1)` is not LATE, so the claimed verdict list
FIRST, EARLY, LATE is wrong. -/
theorem C1_counterexample :
    (runTracker SequenceTracker.init [(10, 1), (15, 1), (12, 1)]).1 ≠
      [OrderStatus.SEQUENCED_FIRST, OrderStatus.SEQUENCED_OUT_OF_ORDER_EARLY,
        OrderStatus.SEQUENCED_OUT_OF_ORDER_LATE] := by decide

/-- Claim C2 (confirmed).  Starting from the initial (empty) tracker map,
no sequence of `determine_order_status` calls, over any inputs
`(seq, count, port, unit)`, ever produces the verdict
SEQUENCED_OUT_OF_ORDER_LATE. -/
theorem C2_late_unreachable (inputs : List (Nat × Nat × Int × Int)) :
    OrderStatus.SEQUENCED_OUT_OF_ORDER_LATE ∉
      (runManager SequenceManager.init inputs).1 :=
  runManager_ne_late inputs SequenceManager.init

/-- Claim C3 (code bug).  The claimed invariant
`last_confirmed_seq ≤ highest_seen_seq` is broken by the code: the
IN_ORDER branch never updates `highest_seen_seq`, so after the packets
`(1, 1), (2, 1)` from the initial state the channel reaches
`last_confirmed_seq = 2` with `highest_seen_seq = 1`. -/
theorem C3_invariant_broken :
    ((runTracker SequenceTracker.init [(1, 1), (2, 1)]).2.last_confirmed_seq
        = 2) ∧
    ((runTracker SequenceTracker.init [(1, 1), (2, 1)]).2.highest_seen_seq
        = 1) ∧
    ¬ ((runTracker SequenceTracker.init [(1, 1), (2, 1)]).2.last_confirmed_seq
        ≤ (runTracker SequenceTracker.init [(1, 1), (2, 1)]).2.highest_seen_seq)
    := by decide

/-- Claim C4 (confirmed).  Feeding sequences 1, 3, 2 with count 1 from the
initial state yields FIRST, EARLY, IN_ORDER; afterwards the pending set
is empty and `last_confirmed_seq = 3` (the contiguous run in pending is
absorbed by the IN_ORDER advance). -/
theorem C4_gap_fill :
    ((runTracker SequenceTracker.init [(1, 1), (3, 1), (2, 1)]).1 =
      [OrderStatus.SEQUENCED_FIRST, OrderStatus.SEQUENCED_OUT_OF_ORDER_EARLY,
        OrderStatus.SEQUENCED_IN_ORDER]) ∧
    ((runTracker SequenceTracker.init [(1, 1), (3, 1), (2, 1)]).2.pending_sequences
        = ∅) ∧
    ((runTracker SequenceTracker.init [(1, 1), (3, 1), (2, 1)]).2.last_confirmed_seq
        = 3) := by decide


/-- Claim C5 (confirmed).  `validate_packet` accepts a buffer exactly when
its length is at least 8, the little-endian `u16` `hdr_length` at offset 0
is between 1 and 2048 (`Config::MAX_BUF`), and `hdr_length` does not
exceed the received length plus 100; in particular `hdr_length = 0` and
`hdr_length > 2048` are rejected. -/
theorem C5_validate_packet_iff (buffer : List Nat) :
    (validate_packet buffer = true ↔
      (8 ≤ buffer.length ∧ 1 ≤ readLE16 buffer ∧ readLE16 buffer ≤ 2048 ∧
        readLE16 buffer ≤ buffer.length + 100)) ∧
    (readLE16 buffer = 0 → validate_packet buffer = false) ∧
    (readLE16 buffer > 2048 → validate_packet buffer = false) := by
  unfold validate_packet Config.MAX_BUF
  refine ⟨?_, ?_, ?_⟩ <;> split_ifs with h1 <;> simp_all
  omega

/-- Claim C6 (confirmed).  `classify_packet_type` implements the ordered
first-match rules: HEARTBEAT for `seq = 0, count = 0, len ≤ 20`; ADMIN for
`seq = 0, count = 0` otherwise; UNSEQUENCED for the remaining `seq = 0`
packets; and DATA whenever `seq > 0`. -/
theorem C6_classify (seq count : Nat) (len : Int) :
    (seq = 0 → count = 0 → len ≤ 20 →
      classify_packet_type seq count len = PacketType.HEARTBEAT) ∧
    (seq = 0 → count = 0 → 20 < len →
      classify_packet_type seq count len = PacketType.ADMIN) ∧
    (seq = 0 → count ≠ 0 →
      classify_packet_type seq count len = PacketType.UNSEQUENCED) ∧
    (seq ≠ 0 → classify_packet_type seq count len = PacketType.DATA) := by
  unfold classify_packet_type
  refine ⟨?_, ?_, ?_, ?_⟩ <;> intros <;> split_ifs <;> simp_all
  omega

/-- Witness for C6 at one concrete input per classification rule. -/
theorem C6_witness :
    classify_packet_type 0 0 10 = PacketType.HEARTBEAT ∧
    classify_packet_type 0 0 21 = PacketType.ADMIN ∧
    classify_packet_type 0 3 50 = PacketType.UNSEQUENCED ∧
    classify_packet_type 7 2 100 = PacketType.DATA :=
  ⟨(C6_classify 0 0 10).1 rfl rfl (by decide),
   (C6_classify 0 0 21).2.1 rfl rfl (by decide),
   (C6_classify 0 3 50).2.2.1 rfl (by decide),
   (C6_classify 7 2 100).2.2.2 (by decide)⟩

/-- Counterexample for C7 as stated: in the reachable channel state with
`last_confirmed_seq = 4294967295` (after a FIRST packet with sequence
`UINT32_MAX`), replaying the already-confirmed sequence 5 returns EARLY,
not DUPLICATE, and mutates the state. -/
theorem C7_counterexample :
    ((determine_order_status SequenceTracker.init 4294967295 1).2 =
      ⟨4294967295, 4294967295, ∅⟩) ∧
    (1 ≤ 5 ∧ 5 ≤ (4294967295 : Nat)) ∧
    ((determine_order_status ⟨4294967295, 4294967295, ∅⟩ 5 1).1 ≠
      OrderStatus.SEQUENCED_DUPLICATE) ∧
    ((determine_order_status ⟨4294967295, 4294967295, ∅⟩ 5 1).2 ≠
      (⟨4294967295, 4294967295, ∅⟩ : SequenceTracker)) := by decide

/-- Claim C7 (corrected).  For every channel state with
`last_confirmed_seq < UINT32_MAX` and every already-confirmed sequence
`1 ≤ seq ≤ last_confirmed_seq`, `determine_order_status` returns
SEQUENCED_DUPLICATE and leaves the channel state unchanged, for any
count value. -/
theorem C7_amended (t : SequenceTracker) (seq count : Nat)
    (hlc : t.last_confirmed_seq < U32 - 1)
    (h1 : 1 ≤ seq) (h2 : seq ≤ t.last_confirmed_seq) :
    (determine_order_status t seq count).1 = OrderStatus.SEQUENCED_DUPLICATE ∧
    (determine_order_status t seq count).2 = t := by
  have hmod : (t.last_confirmed_seq + 1) % U32 = t.last_confirmed_seq + 1 := by
    apply Nat.mod_eq_of_lt
    omega
  simp only [determine_order_status]
  split_ifs with h0 hf h3 h4 <;> simp_all
  omega

/-- Witness for C7: replaying sequence 5 in the state
`(10, 10, ∅)` is a DUPLICATE and changes nothing. -/
theorem C7_amended_witness :
    (determine_order_status ⟨10, 10, ∅⟩ 5 3).1 =
      OrderStatus.SEQUENCED_DUPLICATE ∧
    (determine_order_status ⟨10, 10, ∅⟩ 5 3).2 = ⟨10, 10, ∅⟩ :=
  C7_amended ⟨10, 10, ∅⟩ 5 3 (by decide) (by decide) (by decide)

/-- Claim C8 (confirmed).  With `n = max(count, 1)`, whenever
`seq > UINT32_MAX - n + 1` the effective message count falls back to 1,
and consequently the range end `seq + n - 1` computed with the effective
count never wraps modulo `2^32`. -/
theorem C8_overflow_guard (seq count : Nat) (h1 : 1 ≤ seq) (h2 : seq < U32)
    (h3 : count < 256) :
    (seq > U32 - 1 - max count 1 + 1 → effective_count seq count = 1) ∧
    seq + effective_count seq count - 1 < U32 := by
  have hU : U32 = 4294967296 := rfl
  simp only [effective_count]
  constructor
  · intro hg
    split_ifs <;> omega
  · split_ifs <;> omega

/-- Witness for C8 near the top of the `uint32` range. -/
theorem C8_witness :
    effective_count 4294967290 10 = 1 ∧
    4294967290 + effective_count 4294967290 10 - 1 < U32 :=
  ⟨(C8_overflow_guard 4294967290 10 (by decide) (by decide) (by decide)).1
      (by decide),
   (C8_overflow_guard 4294967290 10 (by decide) (by decide) (by decide)).2⟩



/-- One `process_packet` call always bumps `total_packets` by one and bumps
the sum `data + admin + unsequenced + heartbeats_skipped` by one exactly
when the packet passes validation. -/
lemma process_packet_stats (p : PacketProcessor) (port : Int) (buffer : List Nat) :
    (process_packet p port buffer).stats.total_packets = p.stats.total_packets + 1 ∧
    (process_packet p port buffer).stats.data_packets
      + (process_packet p port buffer).stats.admin_packets
      + (process_packet p port buffer).stats.unsequenced_packets
      + (process_packet p port buffer).stats.heartbeats_skipped
      + (if validate_packet buffer = false then 1 else 0)
      = p.stats.data_packets + p.stats.admin_packets
        + p.stats.unsequenced_packets + p.stats.heartbeats_skipped + 1 := by
  simp only [process_packet]
  split_ifs with hv hh
  · simp [hv]
  · simp [hv]
    omega
  · rcases hpt : classify_packet_type (readLE32seq buffer) (buffer.getD 2 0)
        (Int.ofNat buffer.length) with _ | _ | _ | _ <;>
      rcases hos : (p.seq_manager.determine (readLE32seq buffer) (buffer.getD 2 0)
        port (Int.ofNat (buffer.getD 3 0))).1 with _ | _ | _ | _ | _ | _ <;>
      simp_all [Config.SKIP_HEARTBEATS] <;> omega

/-- Accounting identity for whole runs: the per-type counters plus skipped
heartbeats plus validation rejections account for every processed
packet. -/
lemma runProcessor_sum (packets : List (Int × List Nat)) :
    ∀ p : PacketProcessor,
      (runProcessor p packets).stats.data_packets
      + (runProcessor p packets).stats.admin_packets
      + (runProcessor p packets).stats.unsequenced_packets
      + (runProcessor p packets).stats.heartbeats_skipped
      + invalidCount packets + p.stats.total_packets
      = (runProcessor p packets).stats.total_packets
        + p.stats.data_packets + p.stats.admin_packets
        + p.stats.unsequenced_packets + p.stats.heartbeats_skipped := by
  induction packets with
  | nil =>
      intro p
      simp only [runProcessor, invalidCount]
      omega
  | cons pk rest ih =>
      intro p
      obtain ⟨port, buffer⟩ := pk
      have hstep := process_packet_stats p port buffer
      have hrun := ih (process_packet p port buffer)
      simp only [runProcessor, invalidCount] at *
      split_ifs at * <;> omega

/-- Claim C9 (confirmed).  With heartbeat filtering compiled in
(`Config::SKIP_HEARTBEATS = true`), after any sequence of `process_packet`
calls the statistics satisfy
`data + admin + unsequenced = total − invalid − heartbeats_skipped`,
where `invalid` counts the packets rejected by `validate_packet`. -/
theorem C9_stats_invariant (packets : List (Int × List Nat)) :
    (runProcessor PacketProcessor.init packets).stats.data_packets
    + (runProcessor PacketProcessor.init packets).stats.admin_packets
    + (runProcessor PacketProcessor.init packets).stats.unsequenced_packets
    = (runProcessor PacketProcessor.init packets).stats.total_packets
      - invalidCount packets
      - (runProcessor PacketProcessor.init packets).stats.heartbeats_skipped := by
  have h := runProcessor_sum packets PacketProcessor.init
  simp only [show PacketProcessor.init.stats.total_packets = 0 from rfl,
    show PacketProcessor.init.stats.data_packets = 0 from rfl,
    show PacketProcessor.init.stats.admin_packets = 0 from rfl,
    show PacketProcessor.init.stats.unsequenced_packets = 0 from rfl,
    show PacketProcessor.init.stats.heartbeats_skipped = 0 from rfl] at h
  omega

/-- A `k`-byte little-endian encoding has exactly `k` bytes. -/
lemma leBytes_length (k v : Nat) : (leBytes k v).length = k := by
  simp [leBytes]

/-- The packed `BinaryLogRecord` is exactly 30 bytes:
`sizeof(BinaryLogRecord) = 30`. -/
lemma toBytes_length (r : BinaryLogRecord) : r.toBytes.length = 30 := by
  simp [BinaryLogRecord.toBytes, leBytes_length]

/-- Claim C10 (confirmed).  Each `log_packet` call builds one journal entry:
the packed 30-byte `BinaryLogRecord` header (fields in declaration order)
followed by exactly `payload_length = min(len, 256)` bytes taken from the
start of the packet buffer. -/
theorem C10_log_record (packet_id port : Nat) (buffer : List Nat) (len : Nat)
    (sequence count unit ptype ostatus src_ip ts : Nat)
    (hlen : len ≤ buffer.length) :
    ((log_packet_record packet_id port len sequence count unit ptype ostatus
        src_ip ts).payload_length = min len 256) ∧
    ((log_packet_record packet_id port len sequence count unit ptype ostatus
        src_ip ts).toBytes.length = 30) ∧
    (log_packet_entry packet_id port buffer len sequence count unit ptype
        ostatus src_ip ts =
      (log_packet_record packet_id port len sequence count unit ptype ostatus
        src_ip ts).toBytes ++ buffer.take (min len 256)) ∧
    ((log_packet_entry packet_id port buffer len sequence count unit ptype
        ostatus src_ip ts).length = 30 + min len 256) ∧
    ((log_packet_entry packet_id port buffer len sequence count unit ptype
        ostatus src_ip ts).drop 30 = buffer.take (min len 256)) := by
  have hrec : (log_packet_record packet_id port len sequence count unit ptype
      ostatus src_ip ts).toBytes.length = 30 := toBytes_length _
  have hmin : min len 256 ≤ buffer.length :=
    le_trans (min_le_left len 256) hlen
  refine ⟨rfl, hrec, rfl, ?_, ?_⟩
  · show ((log_packet_record packet_id port len sequence count unit ptype
        ostatus src_ip ts).toBytes ++ buffer.take (min len 256)).length =
      30 + min len 256
    rw [List.length_append, hrec, List.length_take, min_eq_left hmin]
  · show ((log_packet_record packet_id port len sequence count unit ptype
        ostatus src_ip ts).toBytes ++ buffer.take (min len 256)).drop 30 =
      buffer.take (min len 256)
    rw [show (30 : Nat) = (log_packet_record packet_id port len sequence count
        unit ptype ostatus src_ip ts).toBytes.length from hrec.symm]
    exact List.drop_left _ _

/-- Witness for C10 on a concrete 9-byte packet. -/
theorem C10_witness :
    (log_packet_entry 1 30501 [9, 0, 2, 1, 7, 0, 0, 0, 65] 9 7 2 1 3 2 12345
      999).length = 30 + min 9 256 ∧
    (log_packet_entry 1 30501 [9, 0, 2, 1, 7, 0, 0, 0, 65] 9 7 2 1 3 2 12345
      999).drop 30 = [9, 0, 2, 1, 7, 0, 0, 0, 65].take (min 9 256) :=
  ⟨(C10_log_record 1 30501 [9, 0, 2, 1, 7, 0, 0, 0, 65] 9 7 2 1 3 2 12345 999
      (by decide)).2.2.2.1,
   (C10_log_record 1 30501 [9, 0, 2, 1, 7, 0, 0, 0, 65] 9 7 2 1 3 2 12345 999
      (by decide)).2.2.2.2⟩


end Cboe
